import Mathlib

/-!
A verification development for the affine geometry mapping
(`dune/geometry/affinegeometry.hh`) and its invariant checker
(`dune/geometry/genericgeometry/test/checkgeometry.hh`).

The pure fragments of the code are embedded as Lean functions over exact
rational arithmetic (`ℚ`); floating-point tolerance comparisons of the
source (`‖a − b‖ > 1e-8`, `> sqrt(eps)`) become exact disequality `a ≠ b`.
The two external collaborators that the code consumes as opaque
capabilities — the reference-element catalog and the matrix pseudo-inverse
kernel (`MatrixHelper::rightInvA`) — are modelled from the contracts the
specification states for them; each such definition carries a doc comment
starting with `Modelled from the spec:`.
-/

open scoped Matrix

namespace Dune

/-- `FieldVector<ct, mydim>` — a point in the reference element's parameter
space (`AffineGeometry::LocalCoordinate`). -/
abbrev LocalCoordinate (m : ℕ) := Fin m → ℚ

/-- `FieldVector<ct, cdim>` — a point in world space
(`AffineGeometry::GlobalCoordinate`). -/
abbrev GlobalCoordinate (c : ℕ) := Fin c → ℚ

/-- Modelled from the spec: the external `ReferenceElement` contract of §6 —
`size(codim)` (subentity count at a codimension), `position(i, codim)`
(position of the `i`-th subentity), `volume()` (topological volume) and a
geometry-type tag.  `subpos` is the underlying position table; the range
check lives in `RefElement.position` below. -/
structure RefElement (m : ℕ) where
  gtype : ℕ
  size : ℕ → ℕ
  subpos : ℕ → ℕ → LocalCoordinate m
  vol : ℚ

/-- Modelled from the spec: `position(i, codim) → LocalCoordinate`, a lookup
that is defined for subentity indices `i` in `[0, size codim)`; outside that
range the lookup fails with an out-of-range condition (§7), modelled as
`none`.  (The reference-element implementation is not part of the excerpt.) -/
def RefElement.position {m : ℕ} (re : RefElement m) (i codim : ℕ) :
    Option (LocalCoordinate m) :=
  if i < re.size codim then some (re.subpos i codim) else none

/-- Modelled from the spec: the contract of the external pseudo-inverse
kernel (`MatrixHelper::rightInvA`, §6 `rightInverse`): its matrix output is
the Moore–Penrose pseudo-inverse of the input, stated by the four Penrose
equations. -/
def IsMoorePenrose {m c : ℕ} (A : Matrix (Fin m) (Fin c) ℚ)
    (B : Matrix (Fin c) (Fin m) ℚ) : Prop :=
  A * B * A = A ∧ B * A * B = B ∧ (A * B)ᵀ = A * B ∧ (B * A)ᵀ = B * A

/-- `AffineGeometry::Storage` (affinegeometry.hh:88-118): the per-instance
cached data.  The C++ `Storage` inherits from `UserData`; the payload is the
`userData` field here.  `jacobianInverseTransposed` and
`integrationElement` hold whatever the external kernel returned at
construction. -/
structure Storage (m c : ℕ) (U : Type) where
  userData : U
  refElement : RefElement m
  origin : GlobalCoordinate c
  jacobianTransposed : Matrix (Fin m) (Fin c) ℚ
  jacobianInverseTransposed : Matrix (Fin c) (Fin m) ℚ
  integrationElement : ℚ

/-- The direct-form `Storage` constructor (affinegeometry.hh:91-99): stores
origin and Jacobian verbatim and takes the pseudo-inverse and the
integration element from the external kernel, which is passed in as the
function `rightInvA` (it is an external collaborator, not reimplemented). -/
def Storage.ofJacobian {m c : ℕ} {U : Type}
    (rightInvA : Matrix (Fin m) (Fin c) ℚ → Matrix (Fin c) (Fin m) ℚ × ℚ)
    (refEl : RefElement m) (origin : GlobalCoordinate c)
    (jt : Matrix (Fin m) (Fin c) ℚ) (userData : U) : Storage m c U :=
  { userData := userData
    refElement := refEl
    origin := origin
    jacobianTransposed := jt
    jacobianInverseTransposed := (rightInvA jt).1
    integrationElement := (rightInvA jt).2 }

/-- The corner-list `Storage` constructor (affinegeometry.hh:101-111):
`origin = coordVector[0]`, row `i` of the Jacobian transposed is
`coordVector[i+1] - origin`, and the derived data is obtained from the same
kernel call as the direct form.  The C++ code reads `coordVector[0]` …
`coordVector[mydim]` with no length check; an out-of-range read is
undefined behavior in C++ and is modelled by `List.getD` with the zero
vector as default. -/
def Storage.ofCoordVector {m c : ℕ} {U : Type}
    (rightInvA : Matrix (Fin m) (Fin c) ℚ → Matrix (Fin c) (Fin m) ℚ × ℚ)
    (refEl : RefElement m) (coordVector : List (GlobalCoordinate c))
    (userData : U) : Storage m c U :=
  Storage.ofJacobian rightInvA refEl (coordVector.getD 0 0)
    (Matrix.of fun i j =>
      coordVector.getD (i.1 + 1) 0 j - coordVector.getD 0 0 j)
    userData

/-- Modelled from the spec: §7 claims the corner-list length is "checked at
construction, failing with an `InvalidArgument` condition" when it differs
from `mydim+1`.  This definition follows the spec's words (for comparison
with the source constructor `Storage.ofCoordVector`, which performs no such
check). -/
def Storage.ofCoordVectorChecked {m c : ℕ} {U : Type}
    (rightInvA : Matrix (Fin m) (Fin c) ℚ → Matrix (Fin c) (Fin m) ℚ × ℚ)
    (refEl : RefElement m) (coordVector : List (GlobalCoordinate c))
    (userData : U) : Except String (Storage m c U) :=
  if coordVector.length = m + 1 then
    Except.ok (Storage.ofCoordVector rightInvA refEl coordVector userData)
  else
    Except.error "InvalidArgument"

/-- `Dune::AffineGeometry` (affinegeometry.hh:48-279): a wrapper around its
single `storage_` member. -/
structure AffineGeometry (m c : ℕ) (U : Type) where
  storage : Storage m c U

/-- Constructor from reference element, origin and Jacobian transposed
(affinegeometry.hh:129-132). -/
def AffineGeometry.ofJacobian {m c : ℕ} {U : Type}
    (rightInvA : Matrix (Fin m) (Fin c) ℚ → Matrix (Fin c) (Fin m) ℚ × ℚ)
    (refEl : RefElement m) (origin : GlobalCoordinate c)
    (jt : Matrix (Fin m) (Fin c) ℚ) (userData : U) : AffineGeometry m c U :=
  ⟨Storage.ofJacobian rightInvA refEl origin jt userData⟩

/-- Constructor from reference element and corner list
(affinegeometry.hh:154-158). -/
def AffineGeometry.ofCoordVector {m c : ℕ} {U : Type}
    (rightInvA : Matrix (Fin m) (Fin c) ℚ → Matrix (Fin c) (Fin m) ℚ × ℚ)
    (refEl : RefElement m) (coordVector : List (GlobalCoordinate c))
    (userData : U) : AffineGeometry m c U :=
  ⟨Storage.ofCoordVector rightInvA refEl coordVector userData⟩

/-- `affine()` (affinegeometry.hh:174): always true. -/
def AffineGeometry.affine {m c : ℕ} {U : Type} (_ : AffineGeometry m c U) :
    Bool :=
  true

/-- `type()` (affinegeometry.hh:177): the reference element's type tag. -/
def AffineGeometry.type {m c : ℕ} {U : Type} (geo : AffineGeometry m c U) :
    ℕ :=
  geo.storage.refElement.gtype

/-- `corners()` (affinegeometry.hh:180): `refElement().size(mydimension)`. -/
def AffineGeometry.corners {m c : ℕ} {U : Type} (geo : AffineGeometry m c U) :
    ℕ :=
  geo.storage.refElement.size m

/-- `global(local)` (affinegeometry.hh:197-202): starts from the origin and
adds the transposed-matrix–vector product (`umtv`), i.e.
`origin + jacobianTransposedᵀ · local`; `Matrix.vecMul x A = Aᵀ · x`. -/
def AffineGeometry.global {m c : ℕ} {U : Type} (geo : AffineGeometry m c U)
    (x : LocalCoordinate m) : GlobalCoordinate c :=
  geo.storage.origin + Matrix.vecMul x geo.storage.jacobianTransposed

/-- `local(global)` (affinegeometry.hh:215-220): `mtv` on the cached
pseudo-inverse, i.e. `jacobianInverseTransposedᵀ · (global − origin)`.
(`local` is a reserved word in Lean, hence the name `toLocal`.) -/
def AffineGeometry.toLocal {m c : ℕ} {U : Type} (geo : AffineGeometry m c U)
    (g : GlobalCoordinate c) : LocalCoordinate m :=
  Matrix.vecMul (g - geo.storage.origin) geo.storage.jacobianInverseTransposed

/-- `corner(i)` (affinegeometry.hh:183-186):
`global(refElement().position(i, mydimension))`, with the range behavior of
the external `position` lookup. -/
def AffineGeometry.corner {m c : ℕ} {U : Type} (geo : AffineGeometry m c U)
    (i : ℕ) : Option (GlobalCoordinate c) :=
  (geo.storage.refElement.position i m).map geo.global

/-- `center()` (affinegeometry.hh:189):
`global(refElement().position(0, 0))`. -/
def AffineGeometry.center {m c : ℕ} {U : Type} (geo : AffineGeometry m c U) :
    Option (GlobalCoordinate c) :=
  (geo.storage.refElement.position 0 0).map geo.global

/-- `integrationElement(local)` (affinegeometry.hh:232-235): the cached
scalar, independent of the argument. -/
def AffineGeometry.integrationElement {m c : ℕ} {U : Type}
    (geo : AffineGeometry m c U) (_ : LocalCoordinate m) : ℚ :=
  geo.storage.integrationElement

/-- `volume()` (affinegeometry.hh:238-241):
`storage().integrationElement * refElement().volume()`. -/
def AffineGeometry.volume {m c : ℕ} {U : Type} (geo : AffineGeometry m c U) :
    ℚ :=
  geo.storage.integrationElement * geo.storage.refElement.vol

/-- `jacobianTransposed(local)` (affinegeometry.hh:252-255): the cached
constant matrix, independent of the argument. -/
def AffineGeometry.jacobianTransposed {m c : ℕ} {U : Type}
    (geo : AffineGeometry m c U) (_ : LocalCoordinate m) :
    Matrix (Fin m) (Fin c) ℚ :=
  geo.storage.jacobianTransposed

/-- `jacobianInverseTransposed(local)` (affinegeometry.hh:263-266): the
cached constant matrix, independent of the argument. -/
def AffineGeometry.jacobianInverseTransposed {m c : ℕ} {U : Type}
    (geo : AffineGeometry m c U) (_ : LocalCoordinate m) :
    Matrix (Fin c) (Fin m) ℚ :=
  geo.storage.jacobianInverseTransposed

/-- `userData()` (affinegeometry.hh:268-269), read access. -/
def AffineGeometry.userData {m c : ℕ} {U : Type}
    (geo : AffineGeometry m c U) : U :=
  geo.storage.userData

/-- Mutation through the non-const `userData()` accessor
(affinegeometry.hh:269): in C++ the returned reference is an upcast of
`storage_`, so writing through it replaces exactly the `UserData` base
subobject; here, exactly the `userData` field. -/
def AffineGeometry.setUserData {m c : ℕ} {U : Type}
    (geo : AffineGeometry m c U) (u : U) : AffineGeometry m c U :=
  ⟨{ geo.storage with userData := u }⟩

/-- The interface the checker template parameter `TestGeometry` must expose
(checkgeometry.hh:30-58): query operations of an arbitrary geometry
implementation.  `gtype` models `type()`, `toLocal` models `local`. -/
structure TestGeometry (m c : ℕ) where
  gtype : ℕ
  corners : ℕ
  corner : ℕ → GlobalCoordinate c
  center : GlobalCoordinate c
  global : LocalCoordinate m → GlobalCoordinate c
  toLocal : GlobalCoordinate c → LocalCoordinate m
  jacobianTransposed : LocalCoordinate m → Matrix (Fin m) (Fin c) ℚ
  jacobianInverseTransposed : LocalCoordinate m → Matrix (Fin c) (Fin m) ℚ
  integrationElement : LocalCoordinate m → ℚ
  affine : Bool
  volume : ℚ

/-- The diagnostics `checkGeometry` writes to `cerr`, one constructor per
message: `cornerCount` = "Incorrect number of corners" (line 88),
`cornerGlobal` = "Methods corner and global are inconsistent" (line 82),
`roundTrip` = "global and local are not inverse to each other" (line 105),
`jacobianPr` = "jacobianTransposed and jacobianInverseTransposed are not
inverse to each other" (line 156), `negIntEl` = "Negative
integrationElement found" (line 166), `intElMismatch` = "integrationElement
is not consistent with jacobianTransposed" (line 177), `volMismatch` =
"volume is not consistent with jacobianTransposed" (line 182). -/
inductive Diag where
  | cornerCount
  | cornerGlobal
  | roundTrip
  | jacobianPr
  | negIntEl
  | intElMismatch
  | volMismatch

deriving instance DecidableEq for Diag

/-- A failing sub-check (checkgeometry.hh pattern `std::cerr << …;
pass = false;`): emit the diagnostic and record the boolean failure. -/
def failCheck (acc : Bool × List Diag) (d : Diag) : Bool × List Diag :=
  (false, acc.2 ++ [d])

/-- The invariant of the checker's accumulator: the boolean is still `true`
exactly when no diagnostic has been emitted. -/
def accInv (acc : Bool × List Diag) : Prop :=
  acc.1 = true ↔ acc.2 = []

/-- The dense-matrix reconstruction of checkgeometry.hh:119-145: the
returned Jacobian objects only support matrix-vector application (`mv`), so
the checker probes them with the standard basis vectors; column `j` of the
result is `A.mv(e_j)`. -/
def probeColumns {a b : ℕ} (A : Matrix (Fin a) (Fin b) ℚ) :
    Matrix (Fin a) (Fin b) ℚ :=
  Matrix.of fun k j => A.mulVec (fun l => if l = j then 1 else 0) k

/-- One iteration of the corner-placement loop (checkgeometry.hh:79-85):
compare `corner(i)` with `global(refElement.position(i, mydim))`. -/
def cornerStep {m c : ℕ} (re : RefElement m) (g : TestGeometry m c)
    (acc : Bool × List Diag) (i : ℕ) : Bool × List Diag :=
  if some (g.corner i) ≠ (re.position i m).map g.global then
    failCheck acc Diag.cornerGlobal
  else acc

/-- The corner-count and corner-placement section of the checker
(checkgeometry.hh:77-90): when `refElement.size(mydim) == corners()` the
per-corner comparison loop runs; otherwise only the count diagnostic is
emitted and the loop is skipped. -/
def cornerChecks {m c : ℕ} (re : RefElement m) (g : TestGeometry m c) :
    Bool × List Diag :=
  if re.size m = g.corners then
    (List.range g.corners).foldl (cornerStep re g) (true, [])
  else (false, [Diag.cornerCount])

/-- The body of the quadrature-point loop (checkgeometry.hh:98-185) at one
sample point `x`, in source order: round-trip, Jacobian-product identity
(on the probed dense matrices), integration-element non-negativity,
integration-element consistency, volume law.  Exact-arithmetic renderings:
`‖a−b‖ > tol` becomes `a ≠ b`; `|sqrt(det(JᵗJ)) − μ| > 1e-8` becomes
`¬(0 ≤ μ ∧ μ² = det(JᵗJ))`; the nested `if (affine()) if (|…| > 1e-8)` is
the single conjunction guarding the volume diagnostic. -/
def pointChecks {m c : ℕ} (re : RefElement m) (g : TestGeometry m c)
    (x : LocalCoordinate m) (acc : Bool × List Diag) : Bool × List Diag :=
  let a1 := if g.toLocal (g.global x) ≠ x then failCheck acc Diag.roundTrip
            else acc
  let jtM := probeColumns (g.jacobianTransposed x)
  let jitM := probeColumns (g.jacobianInverseTransposed x)
  let a2 := if jtM * jitM ≠ 1 then failCheck a1 Diag.jacobianPr else a1
  let a3 := if g.integrationElement x < 0 then failCheck a2 Diag.negIntEl
            else a2
  let a4 := if ¬(0 ≤ g.integrationElement x ∧
                 g.integrationElement x ^ 2 = (jtM * jtMᵀ).det) then
              failCheck a3 Diag.intElMismatch
            else a3
  if g.affine = true ∧ g.volume ≠ re.vol * g.integrationElement x then
    failCheck a4 Diag.volMismatch
  else a4

/-- The non-throwing remainder of `checkGeometry` after the center check:
the corner section followed by the quadrature-point loop over the supplied
sample points (the degree-2 quadrature rule is produced by an external
factory, so the point set is a parameter here). -/
def checkBody {m c : ℕ} (general : ℕ → RefElement m)
    (quad : List (LocalCoordinate m)) (g : TestGeometry m c) :
    Bool × List Diag :=
  quad.foldl (fun acc x => pointChecks (general g.gtype) g x acc)
    (cornerChecks (general g.gtype) g)

/-- `checkGeometry` (checkgeometry.hh:31-189).  The catalog lookup
`ReferenceElements::general(type)` is the external parameter `general`.
The center check (lines 68-70) uses `DUNE_THROW`, i.e. it raises a fatal
exception instead of recording a failure — modelled as `Except.error` with
the thrown message; every other sub-check accumulates into the returned
pass/fail boolean and diagnostic list. -/
def checkGeometry {m c : ℕ} (general : ℕ → RefElement m)
    (quad : List (LocalCoordinate m)) (g : TestGeometry m c) :
    Except String (Bool × List Diag) :=
  if some g.center ≠ ((general g.gtype).position 0 0).map g.global then
    Except.error "center() is not consistent with global(refElem.position(0,0))."
  else
    Except.ok (checkBody general quad g)

/-- The rational `1/2`, written as a raw numerator/denominator pair so that
it evaluates structurally (the `1/2` spelling elaborates through `Rat`
division, which the kernel does not unfold). -/
def half : ℚ := ⟨1, 2, by norm_num, by simp⟩

/-- A concrete one-dimensional reference element (the unit segment): one
codimension-0 subentity at the center `1/2`, two codimension-1 subentities
(corners) at `0` and `1`, topological volume `1`. -/
def re1 : RefElement 1 :=
  { gtype := 0
    size := fun codim => if codim = 0 then 1 else 2
    subpos := fun i codim _ => if codim = 0 then half else (i : ℚ)
    vol := 1 }

/-- A concrete catalog resolving every type tag to `re1`. -/
def gen0 : ℕ → RefElement 1 := fun _ => re1

/-- A concrete segment geometry that satisfies every checker invariant:
the identity embedding of `re1`. -/
def goodGeo : TestGeometry 1 1 :=
  { gtype := 0
    corners := 2
    corner := fun i _ => (i : ℚ)
    center := fun _ => half
    global := fun x => x
    toLocal := fun g => g
    jacobianTransposed := fun _ => 1
    jacobianInverseTransposed := fun _ => 1
    integrationElement := fun _ => 1
    affine := true
    volume := 1 }

/-- `goodGeo` with a wrong `center()` (`5` instead of `1/2`): the input that
makes the checker's center-consistency check fail. -/
def badGeo : TestGeometry 1 1 :=
  { goodGeo with center := fun _ => 5 }

/-- `goodGeo` claiming `3` corners while its reference element has `2`: the
input that makes the corner-count check fail. -/
def mismatchGeo : TestGeometry 1 1 :=
  { goodGeo with corners := 3 }

/-- A geometry with both a wrong corner count (`3` instead of `2`) and an
inconsistent `center()`: the corner-count failure is never recorded because
the earlier center check throws first. -/
def badBothGeo : TestGeometry 1 1 :=
  { goodGeo with corners := 3, center := fun _ => 5 }

/-- A concrete kernel stand-in used by the corner-list construction
theorems (the construction itself never inspects the kernel's output). -/
def rInv0 : Matrix (Fin 1) (Fin 1) ℚ → Matrix (Fin 1) (Fin 1) ℚ × ℚ :=
  fun A => (A, 0)

/-- A nondegenerate affine geometry: the identity embedding of the unit
segment (origin `0`, Jacobian transposed `1`, pseudo-inverse `1`,
integration element `1`). -/
def idGeo : AffineGeometry 1 1 Unit :=
  ⟨{ userData := ()
     refElement := re1
     origin := fun _ => 0
     jacobianTransposed := 1
     jacobianInverseTransposed := 1
     integrationElement := 1 }⟩

/-- A degenerate affine geometry: a segment collapsed to the point `0`
(both corners equal), so the Jacobian transposed is the zero matrix and the
kernel's Moore–Penrose pseudo-inverse of it is the zero matrix (with
integration element `0`) — the spec's "geometric degeneracy is not an
error" case. -/
def degGeo : AffineGeometry 1 1 Unit :=
  ⟨{ userData := ()
     refElement := re1
     origin := fun _ => 0
     jacobianTransposed := 0
     jacobianInverseTransposed := 0
     integrationElement := 0 }⟩

/-- A non-square affine geometry: the unit segment embedded as the unit
interval of the first axis of the plane (`mydim = 1 < cdim = 2`).  Its
Jacobian transposed is the `1×2` matrix `[1 0]`, whose Moore–Penrose
pseudo-inverse is the `2×1` matrix `[1 0]ᵀ`, and the integration element is
`1`. -/
def c2Geo : AffineGeometry 1 2 Unit :=
  ⟨{ userData := ()
     refElement := re1
     origin := fun _ => 0
     jacobianTransposed := !![1, 0]
     jacobianInverseTransposed := !![1; 0]
     integrationElement := 1 }⟩

/-- A correctly sized corner list for a 1-dimensional geometry
(`mydim + 1 = 2` entries). -/
def cvA : List (GlobalCoordinate 1) := [fun _ => 1, fun _ => 4]

/-- `cvA` with a third, extra corner appended (wrong length `3 ≠ mydim+1`). -/
def cvB : List (GlobalCoordinate 1) := [fun _ => 1, fun _ => 4, fun _ => 9]

/-!  Theorems.  -/

/-- The spec-modelled kernel contract composes: if `B` is a Moore–Penrose
pseudo-inverse of `A` and `A` admits some right inverse (full row rank),
then `B` itself is a right inverse of `A`. -/
theorem mp_right_inverse {m c : ℕ} {A : Matrix (Fin m) (Fin c) ℚ}
    {B : Matrix (Fin c) (Fin m) ℚ} (h : IsMoorePenrose A B)
    (hr : ∃ C : Matrix (Fin c) (Fin m) ℚ, A * C = 1) : A * B = 1 := by
  obtain ⟨C, hC⟩ := hr
  calc A * B = A * B * (A * C) := by rw [hC, Matrix.mul_one]
    _ = A * B * A * C := (Matrix.mul_assoc (A * B) A C).symm
    _ = A * C := by rw [h.1]
    _ = 1 := hC

/-- Any Moore–Penrose pseudo-inverse of the zero matrix is the zero matrix
(so the kernel's output for a fully degenerate Jacobian is forced). -/
theorem mp_zero_unique {m c : ℕ} {B : Matrix (Fin c) (Fin m) ℚ}
    (h : IsMoorePenrose (0 : Matrix (Fin m) (Fin c) ℚ) B) : B = 0 := by
  have h2 := h.2.1
  rwa [Matrix.mul_zero, Matrix.zero_mul, eq_comm] at h2

/-- The checker's basis-vector probing (checkgeometry.hh:119-145)
reconstructs the probed matrix exactly. -/
theorem probeColumns_eq {a b : ℕ} (A : Matrix (Fin a) (Fin b) ℚ) :
    probeColumns A = A := by
  ext k j
  simp [probeColumns, Matrix.mulVec, Matrix.dotProduct, mul_ite, mul_one,
    mul_zero]

/-- A failing-or-passing sub-check step preserves the accumulator
invariant. -/
theorem step_inv (P : Prop) [Decidable P] (acc : Bool × List Diag) (d : Diag)
    (h : accInv acc) : accInv (if P then failCheck acc d else acc) := by
  by_cases hp : P
  · simp [hp, accInv, failCheck]
  · simpa [hp] using h

/-- A diagnostic present after a sub-check step was already present or is
the step's own diagnostic. -/
theorem step_mem (P : Prop) [Decidable P] (acc : Bool × List Diag)
    (d e : Diag) (h : e ∈ (if P then failCheck acc d else acc).2) :
    e ∈ acc.2 ∨ e = d := by
  by_cases hp : P
  · simp only [if_pos hp, failCheck, List.mem_append, List.mem_singleton] at h
    exact h
  · exact Or.inl (by simpa [hp] using h)

/-- A sub-check step never removes a diagnostic. -/
theorem step_keep (P : Prop) [Decidable P] (acc : Bool × List Diag)
    (d e : Diag) (h : e ∈ acc.2) :
    e ∈ (if P then failCheck acc d else acc).2 := by
  by_cases hp : P
  · simp only [if_pos hp, failCheck, List.mem_append]
    exact Or.inl h
  · simpa [hp] using h

/-- A sub-check step never resets the failure boolean. -/
theorem step_false (P : Prop) [Decidable P] (acc : Bool × List Diag)
    (d : Diag) (h : acc.1 = false) :
    (if P then failCheck acc d else acc).1 = false := by
  by_cases hp : P
  · simp [hp, failCheck]
  · simpa [hp] using h

/-- `pointChecks` preserves the accumulator invariant. -/
theorem pointChecks_inv {m c : ℕ} (re : RefElement m) (g : TestGeometry m c)
    (x : LocalCoordinate m) (acc : Bool × List Diag) (h : accInv acc) :
    accInv (pointChecks re g x acc) := by
  simp only [pointChecks]
  exact step_inv _ _ _ (step_inv _ _ _ (step_inv _ _ _ (step_inv _ _ _
    (step_inv _ _ _ h))))

/-- Diagnostics added by `pointChecks` come from the five quadrature-point
sub-checks only. -/
theorem pointChecks_mem {m c : ℕ} (re : RefElement m) (g : TestGeometry m c)
    (x : LocalCoordinate m) (acc : Bool × List Diag) (e : Diag)
    (h : e ∈ (pointChecks re g x acc).2) :
    e ∈ acc.2 ∨ e ∈ [Diag.roundTrip, Diag.jacobianPr, Diag.negIntEl,
      Diag.intElMismatch, Diag.volMismatch] := by
  simp only [pointChecks] at h
  rcases step_mem _ _ _ _ h with h | rfl
  · rcases step_mem _ _ _ _ h with h | rfl
    · rcases step_mem _ _ _ _ h with h | rfl
      · rcases step_mem _ _ _ _ h with h | rfl
        · rcases step_mem _ _ _ _ h with h | rfl
          · exact Or.inl h
          all_goals simp
        all_goals simp
      all_goals simp
    all_goals simp
  all_goals simp

/-- `pointChecks` never removes a diagnostic. -/
theorem pointChecks_keep {m c : ℕ} (re : RefElement m) (g : TestGeometry m c)
    (x : LocalCoordinate m) (acc : Bool × List Diag) (e : Diag)
    (h : e ∈ acc.2) : e ∈ (pointChecks re g x acc).2 := by
  simp only [pointChecks]
  exact step_keep _ _ _ _ (step_keep _ _ _ _ (step_keep _ _ _ _
    (step_keep _ _ _ _ (step_keep _ _ _ _ h))))

/-- `pointChecks` never resets the failure boolean. -/
theorem pointChecks_false {m c : ℕ} (re : RefElement m) (g : TestGeometry m c)
    (x : LocalCoordinate m) (acc : Bool × List Diag) (h : acc.1 = false) :
    (pointChecks re g x acc).1 = false := by
  simp only [pointChecks]
  exact step_false _ _ _ (step_false _ _ _ (step_false _ _ _ (step_false _ _ _
    (step_false _ _ _ h))))

/-- The quadrature loop preserves the accumulator invariant. -/
theorem foldl_pointChecks_inv {m c : ℕ} (re : RefElement m)
    (g : TestGeometry m c) (quad : List (LocalCoordinate m))
    (acc : Bool × List Diag) (h : accInv acc) :
    accInv (quad.foldl (fun a x => pointChecks re g x a) acc) := by
  induction quad generalizing acc with
  | nil => exact h
  | cons y ys ih => exact ih _ (pointChecks_inv re g y acc h)

/-- The quadrature loop never resets the failure boolean. -/
theorem foldl_pointChecks_false {m c : ℕ} (re : RefElement m)
    (g : TestGeometry m c) (quad : List (LocalCoordinate m))
    (acc : Bool × List Diag) (h : acc.1 = false) :
    (quad.foldl (fun a x => pointChecks re g x a) acc).1 = false := by
  induction quad generalizing acc with
  | nil => exact h
  | cons y ys ih => exact ih _ (pointChecks_false re g y acc h)

/-- The quadrature loop never removes a diagnostic. -/
theorem foldl_pointChecks_keep {m c : ℕ} (re : RefElement m)
    (g : TestGeometry m c) (quad : List (LocalCoordinate m))
    (acc : Bool × List Diag) (e : Diag) (h : e ∈ acc.2) :
    e ∈ (quad.foldl (fun a x => pointChecks re g x a) acc).2 := by
  induction quad generalizing acc with
  | nil => exact h
  | cons y ys ih => exact ih _ (pointChecks_keep re g y acc e h)

/-- The quadrature loop never emits the corner-placement diagnostic. -/
theorem foldl_pointChecks_cornerGlobal {m c : ℕ} (re : RefElement m)
    (g : TestGeometry m c) (quad : List (LocalCoordinate m))
    (acc : Bool × List Diag)
    (h : Diag.cornerGlobal ∈ (quad.foldl (fun a x => pointChecks re g x a) acc).2) :
    Diag.cornerGlobal ∈ acc.2 := by
  induction quad generalizing acc with
  | nil => exact h
  | cons y ys ih =>
    rcases pointChecks_mem re g y acc _ (ih _ h) with h' | h'
    · exact h'
    · simp at h'

/-- The corner-placement loop preserves the accumulator invariant. -/
theorem foldl_cornerStep_inv {m c : ℕ} (re : RefElement m)
    (g : TestGeometry m c) (l : List ℕ) (acc : Bool × List Diag)
    (h : accInv acc) : accInv (l.foldl (cornerStep re g) acc) := by
  induction l generalizing acc with
  | nil => exact h
  | cons y ys ih =>
    refine ih _ ?_
    simp only [cornerStep]
    exact step_inv _ _ _ h

/-- The corner section of the checker preserves the accumulator
invariant. -/
theorem cornerChecks_inv {m c : ℕ} (re : RefElement m)
    (g : TestGeometry m c) : accInv (cornerChecks re g) := by
  unfold cornerChecks
  split
  · exact foldl_cornerStep_inv re g _ _ (by simp [accInv])
  · simp [accInv]

/-- When the corner counts disagree, the corner section emits exactly the
count diagnostic and records the failure, skipping the placement loop. -/
theorem cornerChecks_of_count_ne {m c : ℕ} (re : RefElement m)
    (g : TestGeometry m c) (hn : re.size m ≠ g.corners) :
    cornerChecks re g = (false, [Diag.cornerCount]) := by
  simp [cornerChecks, hn]

/-- The identity geometry's cached pseudo-inverse satisfies the kernel
contract. -/
theorem idGeo_mp :
    IsMoorePenrose idGeo.storage.jacobianTransposed
      idGeo.storage.jacobianInverseTransposed := by
  refine ⟨?_, ?_, ?_, ?_⟩ <;> simp [idGeo]

/-- The non-square geometry's cached pseudo-inverse satisfies the kernel
contract. -/
theorem c2Geo_mp :
    IsMoorePenrose c2Geo.storage.jacobianTransposed
      c2Geo.storage.jacobianInverseTransposed := by
  refine ⟨?_, ?_, ?_, ?_⟩ <;> ext i j <;> fin_cases i <;> fin_cases j <;>
    simp [c2Geo, Matrix.mul_apply, Fin.sum_univ_succ]

/-- The non-square geometry's Jacobian transposed has full row rank: the
cached pseudo-inverse is a right inverse for it. -/
theorem c2Geo_rightInverse :
    c2Geo.storage.jacobianTransposed * c2Geo.storage.jacobianInverseTransposed
      = 1 := by
  ext i j; fin_cases i; fin_cases j
  simp [c2Geo, Matrix.mul_apply, Fin.sum_univ_succ]

/-- Claim C1 (amended): for every `AffineGeometry` whose cached
pseudo-inverse satisfies the kernel's Moore–Penrose contract and whose
Jacobian transposed admits a right inverse (full row rank — the
nondegenerate case), `local(global(x)) = x` exactly, for every local
coordinate `x`. -/
theorem local_global_roundtrip {m c : ℕ} {U : Type}
    (geo : AffineGeometry m c U)
    (h1 : IsMoorePenrose geo.storage.jacobianTransposed
      geo.storage.jacobianInverseTransposed)
    (h2 : ∃ B : Matrix (Fin c) (Fin m) ℚ,
      geo.storage.jacobianTransposed * B = 1)
    (x : LocalCoordinate m) : geo.toLocal (geo.global x) = x := by
  have hri := mp_right_inverse h1 h2
  unfold AffineGeometry.toLocal AffineGeometry.global
  rw [add_sub_cancel_left, Matrix.vecMul_vecMul, hri, Matrix.vecMul_one]

/-- Claim C1, witness: the round-trip theorem applied to the concrete
identity geometry at the local point `3`. -/
theorem local_global_roundtrip_witness :
    IsMoorePenrose idGeo.storage.jacobianTransposed
      idGeo.storage.jacobianInverseTransposed ∧
    idGeo.toLocal (idGeo.global fun _ => 3) = (fun _ => (3 : ℚ)) :=
  ⟨idGeo_mp,
    local_global_roundtrip idGeo idGeo_mp ⟨1, by simp [idGeo]⟩ fun _ => 3⟩

/-- Claim C1, counterexample: the degenerate geometry `degGeo` (a segment
collapsed to a point, zero Jacobian) is a legitimate instance — its cached
pseudo-inverse is exactly the Moore–Penrose pseudo-inverse of its Jacobian
transposed — yet `local(global(x)) = 0 ≠ x` at `x = 1`, so the round-trip
does not hold for every instance. -/
theorem local_global_roundtrip_cex :
    IsMoorePenrose degGeo.storage.jacobianTransposed
      degGeo.storage.jacobianInverseTransposed ∧
    degGeo.toLocal (degGeo.global fun _ => 1) ≠ (fun _ => (1 : ℚ)) := by
  constructor
  · refine ⟨?_, ?_, ?_, ?_⟩ <;> simp [degGeo]
  · intro h
    have h0 := congrFun h 0
    simp [degGeo, AffineGeometry.toLocal, AffineGeometry.global,
      Matrix.vecMul_zero] at h0

/-- Claim C2 (amended): in the multiplication order the code actually
checks (checkgeometry.hh:149, `multMatrix(jt, jit, id)`), the product
`jacobianTransposed(x) * jacobianInverseTransposed(x)` is the
`mydim×mydim` identity for every instance satisfying the kernel contract
whose Jacobian transposed admits a right inverse; i.e. the cached
pseudo-inverse is a right inverse of the cached Jacobian transposed. -/
theorem jacobian_duality {m c : ℕ} {U : Type} (geo : AffineGeometry m c U)
    (h1 : IsMoorePenrose geo.storage.jacobianTransposed
      geo.storage.jacobianInverseTransposed)
    (h2 : ∃ B : Matrix (Fin c) (Fin m) ℚ,
      geo.storage.jacobianTransposed * B = 1)
    (x : LocalCoordinate m) :
    geo.jacobianTransposed x * geo.jacobianInverseTransposed x = 1 :=
  mp_right_inverse h1 h2

/-- Claim C2, witness: the duality theorem applied to the concrete
non-square geometry `c2Geo` at the local origin. -/
theorem jacobian_duality_witness :
    IsMoorePenrose c2Geo.storage.jacobianTransposed
      c2Geo.storage.jacobianInverseTransposed ∧
    c2Geo.jacobianTransposed (fun _ => 0) *
      c2Geo.jacobianInverseTransposed (fun _ => 0) = 1 :=
  ⟨c2Geo_mp,
    jacobian_duality c2Geo c2Geo_mp ⟨_, c2Geo_rightInverse⟩ fun _ => 0⟩

/-- Claim C2, counterexample: for the non-square geometry `c2Geo`
(`mydim = 1 < cdim = 2`, Jacobian transposed `[1 0]`, pseudo-inverse
`[1 0]ᵀ` — the genuine Moore–Penrose pseudo-inverse, and a right inverse,
so the checker accepts this instance) the product in the claim's order,
`jacobianInverseTransposed(x) · jacobianTransposed(x)`, is the `2×2`
rank-one projection `[[1,0],[0,0]]`, not an identity matrix: the cached
pseudo-inverse is not a left inverse of the Jacobian transposed. -/
theorem jacobian_duality_cex :
    c2Geo.jacobianInverseTransposed (fun _ => 0) *
        c2Geo.jacobianTransposed (fun _ => 0) ≠
      (1 : Matrix (Fin 2) (Fin 2) ℚ) ∧
    IsMoorePenrose c2Geo.storage.jacobianTransposed
      c2Geo.storage.jacobianInverseTransposed ∧
    c2Geo.storage.jacobianTransposed * c2Geo.storage.jacobianInverseTransposed
      = 1 := by
  refine ⟨?_, c2Geo_mp, c2Geo_rightInverse⟩
  intro h
  have h11 := congrFun (congrFun h 1) 1
  simp [c2Geo, AffineGeometry.jacobianTransposed,
    AffineGeometry.jacobianInverseTransposed, Matrix.mul_apply,
    Fin.sum_univ_succ, Matrix.one_apply] at h11

/-- Claim C3 (amended): when the center-consistency comparison succeeds,
`checkGeometry` never escalates: it returns `Except.ok` with the
accumulated pass/fail boolean and diagnostics of all remaining sub-checks,
and the boolean is `true` exactly when no diagnostic was emitted (every
failing sub-check records boolean-false plus a message and checking
continues).  The center check itself, however, throws (see the
counterexample). -/
theorem checker_accumulates {m c : ℕ} (general : ℕ → RefElement m)
    (quad : List (LocalCoordinate m)) (g : TestGeometry m c)
    (hc : some g.center = ((general g.gtype).position 0 0).map g.global) :
    checkGeometry general quad g = Except.ok (checkBody general quad g) ∧
    ((checkBody general quad g).1 = true ↔
      (checkBody general quad g).2 = []) := by
  constructor
  · unfold checkGeometry
    rw [if_neg (fun hne => hne hc)]
  · exact foldl_pointChecks_inv _ _ _ _ (cornerChecks_inv _ _)

/-- Claim C3, witness: the accumulation theorem applied to the concrete
consistent geometry `goodGeo`. -/
theorem checker_accumulates_witness :
    some goodGeo.center =
      ((gen0 goodGeo.gtype).position 0 0).map goodGeo.global ∧
    (checkGeometry gen0 [] goodGeo = Except.ok (checkBody gen0 [] goodGeo) ∧
      ((checkBody gen0 [] goodGeo).1 = true ↔
        (checkBody gen0 [] goodGeo).2 = [])) :=
  ⟨by decide, checker_accumulates gen0 [] goodGeo (by decide)⟩

/-- Claim C3, counterexample: on the concrete geometry `badGeo`, whose
`center()` disagrees with `global(refElem.position(0,0))`, the checker does
not record a boolean failure and continue — it escalates to a fatal error
(`DUNE_THROW`, checkgeometry.hh:70), so a failing center sub-check aborts
checking. -/
theorem checker_center_fatal_cex :
    checkGeometry gen0 [] badGeo =
      Except.error
        "center() is not consistent with global(refElem.position(0,0))." :=
  rfl

/-- Claim C4: `corner(i)` returns
`global(refElement.position(i, mydim))` for `i` in `[0, corners())` and
fails with the out-of-range condition (modelled as `none`) otherwise. -/
theorem corner_range {m c : ℕ} {U : Type} (geo : AffineGeometry m c U)
    (i : ℕ) :
    geo.corner i =
      if i < geo.corners then
        some (geo.global (geo.storage.refElement.subpos i m))
      else none := by
  by_cases h : i < geo.storage.refElement.size m <;>
    simp [AffineGeometry.corner, AffineGeometry.corners, RefElement.position,
      h]

/-- Claim C5 (amended): the corner-list constructor performs no length
check at all — it reads only entries `0 … mydim` of the supplied sequence
(two corner lists agreeing there yield identical storage, whatever their
lengths), and construction always succeeds. -/
theorem ofCoordVector_reads_first_entries {m c : ℕ} {U : Type}
    (rightInvA : Matrix (Fin m) (Fin c) ℚ → Matrix (Fin c) (Fin m) ℚ × ℚ)
    (refEl : RefElement m) (cv cv' : List (GlobalCoordinate c)) (u : U)
    (h : ∀ i, i ≤ m → cv.getD i 0 = cv'.getD i 0) :
    Storage.ofCoordVector rightInvA refEl cv u =
      Storage.ofCoordVector rightInvA refEl cv' u := by
  have h0 : cv.getD 0 0 = cv'.getD 0 0 := h 0 (Nat.zero_le m)
  have hjt : (Matrix.of fun (i : Fin m) (j : Fin c) =>
      cv.getD (i.1 + 1) 0 j - cv.getD 0 0 j) =
      (Matrix.of fun (i : Fin m) (j : Fin c) =>
        cv'.getD (i.1 + 1) 0 j - cv'.getD 0 0 j) := by
    ext i j
    simp only [Matrix.of_apply]
    rw [h (i.1 + 1) i.2, h0]
  unfold Storage.ofCoordVector
  rw [hjt, h0]

/-- Claim C5, witness: the no-length-check theorem applied to the concrete
lists `cvA` (correct length 2) and `cvB` (wrong length 3): both construct
the same storage. -/
theorem ofCoordVector_reads_first_entries_witness :
    (∀ i, i ≤ 1 → cvA.getD i 0 = cvB.getD i 0) ∧
    Storage.ofCoordVector rInv0 re1 cvA () =
      Storage.ofCoordVector rInv0 re1 cvB () :=
  ⟨by decide, ofCoordVector_reads_first_entries rInv0 re1 cvA cvB ()
    (by decide)⟩

/-- Claim C5, counterexample: the empty corner list has the wrong length
(`0 ≠ mydim+1 = 2`), yet the source constructor does not fail — it returns
an ordinary storage (origin and Jacobian read as defaults), whereas the
constructor the spec describes (`Storage.ofCoordVectorChecked`,
spec-modelled) fails with `InvalidArgument` on the same input. -/
theorem corner_list_no_length_check_cex :
    ([] : List (GlobalCoordinate 1)).length ≠ 1 + 1 ∧
    (Storage.ofCoordVector rInv0 re1 ([] : List (GlobalCoordinate 1))
      ()).origin = (fun _ => 0) ∧
    (Storage.ofCoordVector rInv0 re1 ([] : List (GlobalCoordinate 1))
      ()).jacobianTransposed = 0 ∧
    Storage.ofCoordVectorChecked rInv0 re1 ([] : List (GlobalCoordinate 1))
      () = Except.error "InvalidArgument" := by
  refine ⟨by decide, by decide, ?_, rfl⟩
  ext i j
  simp [Storage.ofCoordVector, Storage.ofJacobian]

/-- Claim C6: `global(x)` is `origin + jacobianTransposedᵀ · x`, defined
(total) for every local coordinate `x`. -/
theorem global_eq_origin_add_jt_transpose_mulVec {m c : ℕ} {U : Type}
    (geo : AffineGeometry m c U) (x : LocalCoordinate m) :
    geo.global x =
      geo.storage.origin + Matrix.mulVec geo.storage.jacobianTransposedᵀ x := by
  unfold AffineGeometry.global
  rw [Matrix.mulVec_transpose]

/-- Claim C7: the corner-list construction sets `origin = coordVector[0]`,
sets row `i` of the Jacobian transposed to `coordVector[i+1] − origin` for
every `i < mydim`, and derives the pseudo-inverse and integration element
from that Jacobian by exactly the same kernel call as the direct
constructor. -/
theorem ofCoordVector_origin_rows {m c : ℕ} {U : Type}
    (rightInvA : Matrix (Fin m) (Fin c) ℚ → Matrix (Fin c) (Fin m) ℚ × ℚ)
    (refEl : RefElement m) (coordVector : List (GlobalCoordinate c))
    (u : U) :
    (Storage.ofCoordVector rightInvA refEl coordVector u).origin =
      coordVector.getD 0 0 ∧
    (∀ i : Fin m,
      (Storage.ofCoordVector rightInvA refEl coordVector u).jacobianTransposed
          i =
        fun j => coordVector.getD (i.1 + 1) 0 j - coordVector.getD 0 0 j) ∧
    Storage.ofCoordVector rightInvA refEl coordVector u =
      Storage.ofJacobian rightInvA refEl (coordVector.getD 0 0)
        (Matrix.of fun i j =>
          coordVector.getD (i.1 + 1) 0 j - coordVector.getD 0 0 j) u :=
  ⟨rfl, fun _ => rfl, rfl⟩

/-- Claim C8: `volume()` is the cached integration element times the
reference element's topological volume, and hence equals
`referenceElement.volume() × integrationElement(x)` for every local
point `x`. -/
theorem volume_consistency {m c : ℕ} {U : Type} (geo : AffineGeometry m c U)
    (x : LocalCoordinate m) :
    geo.volume = geo.storage.integrationElement *
      geo.storage.refElement.vol ∧
    geo.volume = geo.storage.refElement.vol * geo.integrationElement x :=
  ⟨rfl, mul_comm _ _⟩

/-- Claim C9: replacing the `UserData` payload through the mutable
`userData()` accessor changes the payload and nothing else — every
geometric query returns the same value before and after the mutation. -/
theorem userData_mutation_frame {m c : ℕ} {U : Type}
    (geo : AffineGeometry m c U) (u : U) (x : LocalCoordinate m)
    (gp : GlobalCoordinate c) (i : ℕ) :
    (geo.setUserData u).userData = u ∧
    (geo.setUserData u).storage.origin = geo.storage.origin ∧
    (geo.setUserData u).jacobianTransposed x = geo.jacobianTransposed x ∧
    (geo.setUserData u).jacobianInverseTransposed x =
      geo.jacobianInverseTransposed x ∧
    (geo.setUserData u).integrationElement x = geo.integrationElement x ∧
    (geo.setUserData u).type = geo.type ∧
    (geo.setUserData u).corners = geo.corners ∧
    (geo.setUserData u).corner i = geo.corner i ∧
    (geo.setUserData u).center = geo.center ∧
    (geo.setUserData u).global x = geo.global x ∧
    (geo.setUserData u).toLocal gp = geo.toLocal gp ∧
    (geo.setUserData u).volume = geo.volume :=
  ⟨rfl, rfl, rfl, rfl, rfl, rfl, rfl, rfl, rfl, rfl, rfl, rfl⟩

/-- Claim C10 (amended): provided the earlier center-consistency check
passes (otherwise the checker throws before reaching the corner section),
when the geometry's corner count disagrees with the reference element's,
the checker records the failure (result boolean `false`, count diagnostic
emitted) but performs no per-corner placement comparison — the placement
diagnostic cannot appear — and still returns normally with the accumulated
result. -/
theorem corner_count_mismatch_skips_placement {m c : ℕ}
    (general : ℕ → RefElement m) (quad : List (LocalCoordinate m))
    (g : TestGeometry m c)
    (hc : some g.center = ((general g.gtype).position 0 0).map g.global)
    (hn : (general g.gtype).size m ≠ g.corners) :
    checkGeometry general quad g = Except.ok (checkBody general quad g) ∧
    (checkBody general quad g).1 = false ∧
    Diag.cornerCount ∈ (checkBody general quad g).2 ∧
    Diag.cornerGlobal ∉ (checkBody general quad g).2 := by
  have hcc := cornerChecks_of_count_ne (general g.gtype) g hn
  refine ⟨?_, ?_, ?_, ?_⟩
  · unfold checkGeometry
    rw [if_neg (fun hne => hne hc)]
  · unfold checkBody
    rw [hcc]
    exact foldl_pointChecks_false _ _ _ _ rfl
  · unfold checkBody
    rw [hcc]
    exact foldl_pointChecks_keep _ _ _ _ _ (by simp)
  · unfold checkBody
    rw [hcc]
    intro hmem
    have h' := foldl_pointChecks_cornerGlobal _ _ _ _ hmem
    simp at h'

/-- Claim C10, witness: the mismatch theorem applied to the concrete
geometry `mismatchGeo`, which reports 3 corners while its reference
element has 2. -/
theorem corner_count_mismatch_witness :
    (some mismatchGeo.center =
        ((gen0 mismatchGeo.gtype).position 0 0).map mismatchGeo.global ∧
      (gen0 mismatchGeo.gtype).size 1 ≠ mismatchGeo.corners) ∧
    (checkGeometry gen0 [] mismatchGeo =
        Except.ok (checkBody gen0 [] mismatchGeo) ∧
      (checkBody gen0 [] mismatchGeo).1 = false ∧
      Diag.cornerCount ∈ (checkBody gen0 [] mismatchGeo).2 ∧
      Diag.cornerGlobal ∉ (checkBody gen0 [] mismatchGeo).2) :=
  ⟨⟨by decide, by decide⟩,
    corner_count_mismatch_skips_placement gen0 [] mismatchGeo (by decide)
      (by decide)⟩

/-- Claim C10, counterexample: for `badBothGeo` — a concrete geometry whose
corner count (3) differs from its reference element's (2) — `checkGeometry`
does not record a failure and return `false`: because the geometry's
`center()` is also inconsistent, the earlier center check throws, so the
checker never reaches the corner-count section and returns no boolean at
all. -/
theorem corner_count_mismatch_cex :
    (gen0 badBothGeo.gtype).size 1 ≠ badBothGeo.corners ∧
    checkGeometry gen0 [] badBothGeo =
      Except.error
        "center() is not consistent with global(refElem.position(0,0))." :=
  ⟨by decide, rfl⟩

end Dune
